import Mathlib

/-!
Shallow embedding of the ColorGG moderation pipeline.

Sources embedded here:
- `src/unnamed/part_000` (config-manager + `AIEngine`): verdict normalization in
  `AIEngine.analyzeMessage`, the warning ledger (`getWarningCount`/`addWarning`).
- `src/src/bot/mod-bot.js` (`ModBot`): `_handleMessage`, `_takeAction`,
  `_requestBan` (restraint + four-stage delivery + pending-ban recording),
  `_handleInteraction` (ban approve / deny resolution).

JavaScript semantics that matter to the claims are modelled explicitly:
truthiness, `||` defaulting, strict equality `=== true`, `typeof x === 'number'`,
and the numeric coercion JS applies in `x > 0.7`.  Numbers are modelled as `ℚ`
(the source only ever compares and copies them).  Asynchronous platform calls
that can reject are modelled as explicit boolean success parameters; a source
`try`/`catch` becomes a branch on that boolean, so no function here can "throw":
totality of a definition is the embedding of "never raises past this boundary".
-/

namespace ColorGG

/-- A JavaScript value as it can arrive in a classifier JSON field.
`jundef` is an absent field. JSON cannot produce `NaN`/`Infinity` number
literals, so numbers are plain rationals. -/
inductive JVal where
  | jnum (q : ℚ)
  | jstr (s : String)
  | jbool (b : Bool)
  | jnull
  | jundef
deriving DecidableEq, Repr

/-- JS truthiness: `0`, `""`, `false`, `null`, `undefined` are falsy. -/
def JVal.truthy : JVal → Bool
  | .jnum q => decide (q ≠ 0)
  | .jstr s => decide (s ≠ "")
  | .jbool b => b
  | .jnull => false
  | .jundef => false

/-- Digit run to a natural number; `none` if any character is not a digit. -/
def digitsToNat : List Char → Option ℕ
  | [] => some 0
  | c :: cs =>
    if c.isDigit then
      (digitsToNat cs).map (fun n => (c.toNat - 48) * 10 ^ cs.length + n)
    else
      none

/-- JS `ToNumber` on the strings this development evaluates: unsigned decimal
literals (`"12"`, `"0.9"`, `".5"`), with `""` mapping to `0`; anything else is
`NaN` (`none`). This is the fragment of the ECMAScript string-to-number
grammar exercised by the concrete inputs below. -/
def strToNumQ (s : String) : Option ℚ :=
  if s = "" then some 0
  else
    match s.splitOn "." with
    | [a] => (digitsToNat a.data).map (fun n => (n : ℚ))
    | [a, b] =>
      if a = "" && b = "" then none
      else
        match digitsToNat a.data, digitsToNat b.data with
        | some n, some f => some ((n : ℚ) + (f : ℚ) / (10 : ℚ) ^ b.length)
        | _, _ => none
    | _ => none

/-- JS `ToNumber`; `none` stands for `NaN`. -/
def JVal.toNumber : JVal → Option ℚ
  | .jnum q => some q
  | .jstr s => strToNumQ s
  | .jbool b => some (if b then 1 else 0)
  | .jnull => some 0
  | .jundef => none

/-- JS `a || b`. -/
def jsOr (v d : JVal) : JVal := if v.truthy then v else d

/-- JS `v > q` where `q` is a number literal: numeric comparison after
`ToNumber` coercion; any comparison against `NaN` is `false`. -/
def jsGtNum (v : JVal) (q : ℚ) : Bool :=
  match v.toNumber with
  | some x => decide (x > q)
  | none => false

/-! ### Insertion-ordered string-keyed map (JS `Map`) -/

/-- Entries of a JS `Map` keyed by strings, in insertion order. -/
abbrev SMap (α : Type) := List (String × α)

/-- JS `Map.get` (returning `undefined` as `none`). -/
def mapGet {α : Type} (m : SMap α) (k : String) : Option α :=
  (m.find? (fun p => p.1 = k)).map Prod.snd

/-- JS `Map.set`: update in place if the key exists, else append. -/
def mapSet {α : Type} (m : SMap α) (k : String) (v : α) : SMap α :=
  match m with
  | [] => [(k, v)]
  | p :: rest => if p.1 = k then (k, v) :: rest else p :: mapSet rest k v

/-- JS `Map.delete` (dropping every entry with the key; keys are unique in
every map this development builds). -/
def mapDelete {α : Type} (m : SMap α) (k : String) : SMap α :=
  m.filter (fun p => p.1 ≠ k)

theorem mapGet_mapSet_self {α : Type} (m : SMap α) (k : String) (v : α) :
    mapGet (mapSet m k v) k = some v := by
  induction m with
  | nil => simp [mapGet, mapSet, List.find?]
  | cons p rest ih =>
    by_cases h : p.1 = k
    · simp [mapSet, h, mapGet, List.find?]
    · simp only [mapSet, if_neg h]
      simpa [mapGet, List.find?, h] using ih

theorem mapDelete_of_absent {α : Type} (m : SMap α) (k : String)
    (h : ∀ p ∈ m, p.1 ≠ k) : mapDelete m k = m := by
  induction m with
  | nil => simp [mapDelete]
  | cons p rest ih =>
    have hp : p.1 ≠ k := h p (by simp)
    have hrest : ∀ q ∈ rest, q.1 ≠ k := fun q hq => h q (by simp [hq])
    have ih2 : mapDelete rest k = rest := ih hrest
    simp only [mapDelete] at ih2 ⊢
    rw [List.filter_cons_of_pos (by simpa using hp), ih2]

theorem mapGet_mapDelete {α : Type} (m : SMap α) (k : String) :
    mapGet (mapDelete m k) k = none := by
  induction m with
  | nil => simp [mapGet, mapDelete]
  | cons p rest ih =>
    by_cases h : p.1 = k
    · simpa [mapDelete, h] using ih
    · simp only [mapDelete] at ih ⊢
      simp [mapGet, List.find?, h, ih]

/-! ### Configuration data (config-manager / default-rules) -/

/-- A moderation rule as stored by the config manager (`src/unnamed/part_000`,
config section). Only the fields the decision pipeline reads are kept. -/
structure Rule where
  id : String
  action : String
  timeoutDuration : ℚ
  severity : String
  enabled : Bool
deriving DecidableEq, Repr

/-- Global settings as read by `ModBot._handleMessage` / `_takeAction` /
`_requestBan`. `Option` marks fields that may be absent (`undefined`);
`warningsBeforeAction` keeps its raw numeric value because the source applies
`|| 2`, under which a configured `0` also falls back to the default. -/
structure Settings where
  warningsBeforeAction : Option ℕ
  dmOnAction : Bool
  ignoredChannels : Option (List String)
  ignoredRoles : Option (List String)
  trustedRoles : Option (List String)
deriving DecidableEq, Repr

/-- JS `settings.warningsBeforeAction || 2`: absent or `0` falls back to 2. -/
def maxWarningsOf (s : Settings) : ℕ :=
  match s.warningsBeforeAction with
  | some n => if n = 0 then 2 else n
  | none => 2

/-! ### Warning ledger (`AIEngine.userWarnings`) -/

/-- Embeds `AIEngine.getWarningCount`: `this.userWarnings.get(userId) || 0`. -/
def getWarningCount (m : SMap ℕ) (userId : String) : ℕ :=
  (mapGet m userId).getD 0

/-- Embeds `AIEngine.addWarning`: `set(userId, getWarningCount(userId) + 1)`. -/
def addWarning (m : SMap ℕ) (userId : String) : SMap ℕ :=
  mapSet m userId (getWarningCount m userId + 1)

theorem getWarningCount_addWarning (m : SMap ℕ) (u : String) :
    getWarningCount (addWarning m u) u = getWarningCount m u + 1 := by
  simp [getWarningCount, addWarning, mapGet_mapSet_self]

/-! ### Classifier client (`AIEngine.analyzeMessage`) -/

/-- The raw JSON object extracted from the classifier response, before the
`// Validate and normalize` block. Every field may hold any JSON value;
`violations` abstracts `Array.isArray`: `some l` is an array (of rule-id
strings, the only shape the pipeline ever reads), `none` any non-array. -/
structure RawVerdict where
  flagged : JVal
  violations : Option (List String)
  confidence : JVal
  reasoning : JVal
  suggestedAction : JVal
  suggestedDuration : JVal
  replyMessage : JVal
deriving DecidableEq, Repr

/-- The verdict object after `analyzeMessage`'s normalization block.
`flagged` and `confidence` are the two fields the source forces to
`Bool`/number; the remaining fields keep whatever JS value the `||` defaulting
left in place. -/
structure Verdict where
  flagged : Bool
  violations : List String
  confidence : ℚ
  reasoning : JVal
  suggestedAction : JVal
  suggestedDuration : JVal
  replyMessage : JVal
deriving DecidableEq, Repr

/-- Lines 247–253 of `src/unnamed/part_000`:
`result.flagged = result.flagged === true && (result.confidence || 0) > 0.7;`
`result.violations = Array.isArray(result.violations) ? result.violations : [];`
`result.confidence = typeof result.confidence === 'number' ? result.confidence : 0;`
`result.reasoning = result.reasoning || 'No reasoning provided';`
`result.suggestedAction = result.suggestedAction || 'none';`
`result.suggestedDuration = result.suggestedDuration || 0;` -/
def normalizeVerdict (r : RawVerdict) : Verdict :=
  { flagged := (r.flagged = JVal.jbool true) && jsGtNum (jsOr r.confidence (.jnum 0)) (7 / 10)
    violations := r.violations.getD []
    confidence := match r.confidence with | .jnum q => q | _ => 0
    reasoning := jsOr r.reasoning (.jstr "No reasoning provided")
    suggestedAction := jsOr r.suggestedAction (.jstr "none")
    suggestedDuration := jsOr r.suggestedDuration (.jnum 0)
    replyMessage := r.replyMessage }

/-- Outcome of the remote classification call as seen by `analyzeMessage`'s
`try` block: `ok` carries the JSON object extracted from the response body;
`fail` carries the error message of whatever was thrown (axios timeout,
non-JSON body, `'No JSON found in AI response'`, `JSON.parse` error). -/
inductive CallOutcome where
  | ok (raw : RawVerdict)
  | fail (errMsg : String)
deriving DecidableEq, Repr

/-- What `analyzeMessage` produces: the returned verdict plus the audit
entries it wrote (`logger.error` count and whether `logger.aiAnalysis` ran). -/
structure AnalyzeResult where
  verdict : Verdict
  errorEntries : ℕ
  analysisLogged : Bool
deriving DecidableEq, Repr

/-- The early return `{ flagged: false, violations: [], confidence: 0,
reasoning: 'No rules enabled' }` — the remaining fields are absent. -/
def noRulesVerdict : Verdict :=
  { flagged := false, violations := [], confidence := 0
    reasoning := .jstr "No rules enabled", suggestedAction := .jundef
    suggestedDuration := .jundef, replyMessage := .jundef }

/-- The safe default returned from `analyzeMessage`'s `catch` block. -/
def failVerdict (errMsg : String) : Verdict :=
  { flagged := false, violations := [], confidence := 0
    reasoning := .jstr ("AI analysis failed: " ++ errMsg)
    suggestedAction := .jstr "none", suggestedDuration := .jnum 0
    replyMessage := .jnull }

/-- Embeds `AIEngine.analyzeMessage` (`src/unnamed/part_000`, lines 197–286), with
the remote call abstracted into `outcome`. The function is total: the source
catches every throw inside its own `try`, so nothing escapes this boundary. -/
def analyzeMessage (rules : List Rule) (outcome : CallOutcome) : AnalyzeResult :=
  if (rules.filter (·.enabled)).isEmpty then
    { verdict := noRulesVerdict, errorEntries := 0, analysisLogged := false }
  else
    match outcome with
    | .ok raw =>
      { verdict := normalizeVerdict raw, errorEntries := 0, analysisLogged := true }
    | .fail e =>
      { verdict := failVerdict e, errorEntries := 1, analysisLogged := false }

/-! ### Decision engine (`ModBot._takeAction`, lines 138–239) -/

/-- Lines 141–150: start from the verdict's suggestion, then let the rule for
the primary violation (`violations[0]`) override it. JS guards the lookup with
`primaryViolation ? … : null`, so an empty-string primary id skips the lookup;
the duration override is guarded by `if (rule.timeoutDuration)`, so a rule
whose `timeoutDuration` is `0` leaves the verdict's suggested duration. -/
def resolveAction (v : Verdict) (rules : List Rule) : JVal × JVal :=
  let primary := v.violations.head?
  let rule : Option Rule :=
    match primary with
    | some pv => if pv = "" then none else rules.find? (fun r => r.id = pv)
    | none => none
  match rule with
  | some r =>
    (JVal.jstr r.action,
      if r.timeoutDuration ≠ 0 then JVal.jnum r.timeoutDuration else v.suggestedDuration)
  | none => (v.suggestedAction, v.suggestedDuration)

/-- Observable steps of `_takeAction`, in execution order. Each platform call
is an *attempt*: its own failure is caught and logged inside the callee. -/
inductive Ev where
  | repliedInChannel
  | warnLogged
  | deleteAttempt (ok : Bool)
  | deleteErrorLogged
  | timeoutApplied (duration : JVal)
  | kickApplied
  | banRequested
  | dmAttempted
deriving DecidableEq, Repr

/-- Result of `_takeAction`: the resolved action/duration, whether the warn
branch (lines 157–187) ran, the updated warning ledger, and the ordered
observable events. -/
structure TakeResult where
  action : JVal
  duration : JVal
  warnBranch : Bool
  ledger : SMap ℕ
  events : List Ev
deriving DecidableEq, Repr

/-- Embeds `ModBot._takeAction` (lines 138–239). `deleteOk` is whether
`message.delete()` resolves; its rejection is caught at line 192 and logged.
The warn branch returns before the delete, so a downgraded timeout never
deletes; every other action attempts the delete first and proceeds
regardless of its outcome. -/
def takeAction (v : Verdict) (rules : List Rule) (s : Settings)
    (authorId : String) (ledger : SMap ℕ) (deleteOk : Bool) : TakeResult :=
  let resolved := resolveAction v rules
  let action := resolved.1
  let duration := resolved.2
  let warningCount := getWarningCount ledger authorId
  let maxWarnings := maxWarningsOf s
  if action = JVal.jstr "warn" ∨ (action = JVal.jstr "timeout" ∧ warningCount < maxWarnings) then
    { action, duration, warnBranch := true
      ledger := addWarning ledger authorId
      events := (if v.replyMessage.truthy then [Ev.repliedInChannel] else []) ++ [Ev.warnLogged] }
  else
    let deleteEvents := Ev.deleteAttempt deleteOk ::
      (if deleteOk then [] else [Ev.deleteErrorLogged])
    let actionEvents :=
      if action = JVal.jstr "timeout" then [Ev.timeoutApplied duration]
      else if action = JVal.jstr "kick" then [Ev.kickApplied]
      else if action = JVal.jstr "request_ban" then [Ev.banRequested]
      else []
    let dmEvents := if s.dmOnAction ∧ action ≠ JVal.jstr "warn" then [Ev.dmAttempted] else []
    { action, duration, warnBranch := false
      ledger := ledger
      events := deleteEvents ++ actionEvents ++ dmEvents }

/-! ### Inbound message handler (`ModBot._handleMessage`, lines 102–136) -/

/-- The fields of an inbound message `_handleMessage` branches on.
`memberRoles` is `some` role-id list when `message.member` is present. -/
structure InMsg where
  authorBot : Bool
  system : Bool
  inGuild : Bool
  authorId : String
  channelId : String
  memberRoles : Option (List String)
deriving DecidableEq, Repr

/-- What `_handleMessage` did with one message: how far the message travelled
through the pipeline, whether `messageCount` was incremented, whether the
classifier ran, whether the enforcement gate
(`analysis.flagged && analysis.confidence > 0.7`) fired, and the error audit
entries written along the way. -/
structure HandleResult where
  messageCountDelta : ℕ
  classifierInvoked : Bool
  actionTaken : Bool
  errorEntries : ℕ
deriving DecidableEq, Repr

/-- Embeds `ModBot._handleMessage`. Bots, system messages, and non-guild messages
return before any counting or analysis; ignored channels and ignored/trusted
roles return after the count but before analysis. `outcome` abstracts the
remote classifier call exactly as in `analyzeMessage`. -/
def handleMessage (m : InMsg) (s : Settings) (rules : List Rule)
    (outcome : CallOutcome) : HandleResult :=
  if m.authorBot ∨ m.system then ⟨0, false, false, 0⟩
  else if ¬m.inGuild then ⟨0, false, false, 0⟩
  else if (match s.ignoredChannels with
           | some l => l.contains m.channelId
           | none => false) then ⟨1, false, false, 0⟩
  else if (match s.ignoredRoles, m.memberRoles with
           | some ignored, some roles => roles.any (fun r => ignored.contains r)
           | _, _ => false) then ⟨1, false, false, 0⟩
  else if (match s.trustedRoles, m.memberRoles with
           | some trusted, some roles => roles.any (fun r => trusted.contains r)
           | _, _ => false) then ⟨1, false, false, 0⟩
  else
    let ar := analyzeMessage rules outcome
    { messageCountDelta := 1
      classifierInvoked := !(rules.filter (·.enabled)).isEmpty
      actionTaken := ar.verdict.flagged && decide (ar.verdict.confidence > 7 / 10)
      errorEntries := ar.errorEntries }

/-! ### Ban-request protocol (`ModBot._requestBan`, lines 306–532) -/

/-- The restraint applied in Phase 1 (lines 311–347): a successful kick, an
attempted 7-day timeout (in milliseconds, `7*24*60*60*1000`), or nothing
(member not found / fetch rejected / kick call itself rejected). -/
inductive Restraint where
  | kickRestraint
  | muteMs (ms : ℕ)
  | noRestraint
deriving DecidableEq, Repr

/-- Phase 1: `memberFound` is whether `message.member || fetch` produced a
member (a rejected fetch lands in the `catch` at line 345); `kickOk` is
whether the `member.kick` call resolves — if it rejects, the same `catch`
fires and no fallback mute is attempted. -/
def restrainPhase (memberFound kickable kickOk : Bool) : Bool × Restraint :=
  if memberFound then
    if kickable then
      if kickOk then (true, .kickRestraint) else (false, .noRestraint)
    else (false, .muteMs (7 * 24 * 60 * 60 * 1000))
  else (false, .noRestraint)

/-- The four delivery stages of Phase 3, in source order. -/
inductive Stage where
  | dmStage
  | modChannelStage
  | violationChannelStage
  | anyChannelStage
deriving DecidableEq, Repr

/-- Phase 3 delivery (lines 427–495). Inputs are the send-success of each
stage where the stage's target exists: `admin = some ok` when a reviewer was
located (Phase 2) and the DM send resolves iff `ok`; `modCh = some ok` when a
channel matching the mod-channel name list exists; the violation channel
always exists; `anyCh = some ok` when some text channel with send permission
exists. Returns the attempted sends in order (with their outcome) and the
final `delivered` flag. -/
def deliverPhase (admin modCh : Option Bool) (violOk : Bool) (anyCh : Option Bool) :
    List (Stage × Bool) × Bool :=
  let a1 : List (Stage × Bool) :=
    match admin with
    | some ok => [(Stage.dmStage, ok)]
    | none => []
  let d1 : Bool := match admin with | some ok => ok | none => false
  if d1 then (a1, true)
  else
    let a2 : List (Stage × Bool) :=
      match modCh with
      | some ok => [(Stage.modChannelStage, ok)]
      | none => []
    let d2 : Bool := match modCh with | some ok => ok | none => false
    if d2 then (a1 ++ a2, true)
    else if violOk then (a1 ++ a2 ++ [(Stage.violationChannelStage, true)], true)
    else
      let a3 := a1 ++ a2 ++ [(Stage.violationChannelStage, false)]
      match anyCh with
      | some ok => (a3 ++ [(Stage.anyChannelStage, ok)], ok)
      | none => (a3, false)

/-- The entry stored in `this.pendingBans` (line 498). -/
structure PendingBan where
  userId : String
  guildId : String
  reason : JVal
  violations : List String
  confidence : ℚ
  kicked : Bool
  delivered : Bool
deriving DecidableEq, Repr

/-- Result of one `_requestBan` run. -/
structure BanReqResult where
  kicked : Bool
  restraint : Restraint
  attempts : List (Stage × Bool)
  delivered : Bool
  pendingBans : SMap PendingBan
  deliveryFailureLogged : Bool
deriving DecidableEq, Repr

/-- Embeds `ModBot._requestBan`: Phase 1 restraint, Phase 3 delivery, then the
pending-ban entry is stored under `` `${userId}_${guildId}` `` whether or not
delivery succeeded; exhaustion of all fallbacks is logged (line 511) but
never retried. -/
def requestBan (v : Verdict) (userId guildId : String)
    (memberFound kickable kickOk : Bool)
    (admin modCh : Option Bool) (violOk : Bool) (anyCh : Option Bool)
    (pending : SMap PendingBan) : BanReqResult :=
  let r1 := restrainPhase memberFound kickable kickOk
  let kicked := r1.1
  let del := deliverPhase admin modCh violOk anyCh
  let entry : PendingBan :=
    { userId, guildId, reason := v.reasoning, violations := v.violations
      confidence := v.confidence, kicked, delivered := del.2 }
  { kicked, restraint := r1.2, attempts := del.1, delivered := del.2
    pendingBans := mapSet pending (userId ++ "_" ++ guildId) entry
    deliveryFailureLogged := !del.2 }

/-! ### Ban review resolution (`ModBot._handleInteraction`, lines 534–615) -/

/-- What the approve branch reported back through `interaction.update`. -/
inductive ApproveOutcome where
  | bannedViaMember
  | bannedById
  | banByIdFailed
  | outerBanError
deriving DecidableEq, Repr

/-- Approve branch (lines 540–593). `guildOk`: the guild fetch resolves;
`memberFound`: `guild.members.fetch(userId)` resolves (its rejection is
converted to `null` by `.catch(() => null)`); `memberBanOk`: `member.ban`
resolves (a rejection reaches the *outer* catch, skipping the delete);
`banByIdOk`: `guild.bans.create` resolves (a rejection is caught *inside*
the else branch, after which control still reaches
`this.pendingBans.delete(...)` at line 586). -/
def handleApprove (userId guildId : String)
    (guildOk memberFound bannable memberBanOk banByIdOk : Bool)
    (pending : SMap PendingBan) : ApproveOutcome × SMap PendingBan :=
  let key := userId ++ "_" ++ guildId
  if ¬guildOk then (.outerBanError, pending)
  else if memberFound ∧ bannable then
    if memberBanOk then (.bannedViaMember, mapDelete pending key)
    else (.outerBanError, pending)
  else if banByIdOk then (.bannedById, mapDelete pending key)
  else (.banByIdFailed, mapDelete pending key)

/-- What the deny branch reported back. -/
inductive DenyOutcome where
  | denied
  | denyError
deriving DecidableEq, Repr

/-- Deny branch (lines 594–614). `clearOk`: `member.timeout(null, …)`
resolves; its rejection (like a failing guild fetch) reaches the catch at
line 607, which reports the error and skips the delete. When the member is
absent the timeout lift is skipped and the entry is deleted directly;
deleting an absent key is the JS `Map.delete` no-op. -/
def handleDeny (userId guildId : String) (guildOk memberFound clearOk : Bool)
    (pending : SMap PendingBan) : DenyOutcome × SMap PendingBan :=
  let key := userId ++ "_" ++ guildId
  if ¬guildOk then (.denyError, pending)
  else if memberFound ∧ ¬clearOk then (.denyError, pending)
  else (.denied, mapDelete pending key)

/-! ## Claim C1 -/

/-- A raw classifier output whose `confidence` field is the JSON boolean
`true` — malformed (non-numeric) but JSON-valid. Under JS coercion
`(true || 0) > 0.7` is `1 > 0.7`, so the `flagged` recomputation keeps
`flagged = true`, while the confidence normalization on the next line
replaces the non-number with `0`. -/
def rawBoolConfidence : RawVerdict :=
  { flagged := .jbool true, violations := some ["harassment"]
    confidence := .jbool true, reasoning := .jstr "targeted harassment"
    suggestedAction := .jstr "timeout", suggestedDuration := .jnum 600
    replyMessage := .jnull }

/-- C1: the spec's invariant `flagged = true ⇒ confidence > 0.7` (over the
post-normalization confidence) is violated by `analyzeMessage`'s own
normalization: on `rawBoolConfidence` the normalized verdict has
`flagged = true` and `confidence = 0`. The slip is an ordering one —
`result.flagged` is computed from the *raw* coerced confidence at line 248 of
`src/unnamed/part_000`, and only afterwards is a non-numeric confidence
zeroed at line 250. -/
theorem flagged_invariant_violated_by_nonnumeric_confidence :
    (normalizeVerdict rawBoolConfidence).flagged = true ∧
    (normalizeVerdict rawBoolConfidence).confidence = 0 ∧
    ¬((normalizeVerdict rawBoolConfidence).confidence > 7 / 10) := by
  refine ⟨?_, ?_, ?_⟩
  · simp [normalizeVerdict, rawBoolConfidence, jsGtNum, jsOr, JVal.truthy, JVal.toNumber]
    norm_num
  · simp [normalizeVerdict, rawBoolConfidence]
  · simp [normalizeVerdict, rawBoolConfidence]
    norm_num

/-! ## Claim C2 -/

/-- C2: escalation softening in `_takeAction`. When the resolved action is
`timeout`: below the `warningsBeforeAction` threshold the warn branch runs
and the offender's ledger count is incremented; at the threshold there is no
downgrade and the timeout of the resolved duration is applied. Resolved
`warn` stays on the warn branch, and resolved `kick` / `request_ban` are
never downgraded. -/
theorem timeout_downgrade_below_threshold (v : Verdict) (rules : List Rule)
    (s : Settings) (authorId : String) (ledger : SMap ℕ) (deleteOk : Bool) :
    ((resolveAction v rules).1 = JVal.jstr "timeout" →
      getWarningCount ledger authorId < maxWarningsOf s →
      (takeAction v rules s authorId ledger deleteOk).warnBranch = true ∧
      Ev.warnLogged ∈ (takeAction v rules s authorId ledger deleteOk).events ∧
      getWarningCount (takeAction v rules s authorId ledger deleteOk).ledger authorId =
        getWarningCount ledger authorId + 1) ∧
    ((resolveAction v rules).1 = JVal.jstr "timeout" →
      getWarningCount ledger authorId = maxWarningsOf s →
      (takeAction v rules s authorId ledger deleteOk).warnBranch = false ∧
      Ev.timeoutApplied (resolveAction v rules).2 ∈
        (takeAction v rules s authorId ledger deleteOk).events) ∧
    ((resolveAction v rules).1 = JVal.jstr "warn" →
      (takeAction v rules s authorId ledger deleteOk).warnBranch = true ∧
      getWarningCount (takeAction v rules s authorId ledger deleteOk).ledger authorId =
        getWarningCount ledger authorId + 1) ∧
    ((resolveAction v rules).1 = JVal.jstr "kick" →
      (takeAction v rules s authorId ledger deleteOk).warnBranch = false ∧
      Ev.kickApplied ∈ (takeAction v rules s authorId ledger deleteOk).events) ∧
    ((resolveAction v rules).1 = JVal.jstr "request_ban" →
      (takeAction v rules s authorId ledger deleteOk).warnBranch = false ∧
      Ev.banRequested ∈ (takeAction v rules s authorId ledger deleteOk).events) := by
  refine ⟨?_, ?_, ?_, ?_, ?_⟩
  · intro h hlt
    have hc : (resolveAction v rules).1 = JVal.jstr "warn" ∨
        ((resolveAction v rules).1 = JVal.jstr "timeout" ∧
          getWarningCount ledger authorId < maxWarningsOf s) := Or.inr ⟨h, hlt⟩
    simp [takeAction, hc, getWarningCount_addWarning]
  · intro h heq
    have hc : ¬((resolveAction v rules).1 = JVal.jstr "warn" ∨
        ((resolveAction v rules).1 = JVal.jstr "timeout" ∧
          getWarningCount ledger authorId < maxWarningsOf s)) := by
      rintro (hw | ⟨_, hlt⟩)
      · rw [h] at hw; simp at hw
      · omega
    have hnlt : ¬getWarningCount ledger authorId < maxWarningsOf s := by omega
    simp [takeAction, hc, h, hnlt]
  · intro h
    have hc : (resolveAction v rules).1 = JVal.jstr "warn" ∨
        ((resolveAction v rules).1 = JVal.jstr "timeout" ∧
          getWarningCount ledger authorId < maxWarningsOf s) := Or.inl h
    simp [takeAction, hc, getWarningCount_addWarning]
  · intro h
    have hc : ¬((resolveAction v rules).1 = JVal.jstr "warn" ∨
        ((resolveAction v rules).1 = JVal.jstr "timeout" ∧
          getWarningCount ledger authorId < maxWarningsOf s)) := by
      rintro (hw | ⟨ht, _⟩)
      · rw [h] at hw; simp at hw
      · rw [h] at ht; simp at ht
    simp [takeAction, hc, h]
  · intro h
    have hc : ¬((resolveAction v rules).1 = JVal.jstr "warn" ∨
        ((resolveAction v rules).1 = JVal.jstr "timeout" ∧
          getWarningCount ledger authorId < maxWarningsOf s)) := by
      rintro (hw | ⟨ht, _⟩)
      · rw [h] at hw; simp at hw
      · rw [h] at ht; simp at ht
    simp [takeAction, hc, h]

/-- The spam rule of the spec's end-to-end scenarios 1 and 2. -/
def spamRule : Rule :=
  { id := "spam", action := "timeout", timeoutDuration := 300
    severity := "medium", enabled := true }

/-- A flagged verdict whose primary violation is the spam rule. -/
def spamVerdict : Verdict :=
  { flagged := true, violations := ["spam"], confidence := 9 / 10
    reasoning := .jstr "repeated spam", suggestedAction := .jstr "timeout"
    suggestedDuration := .jnum 60, replyMessage := .jnull }

/-- Default settings used by the concrete scenarios. -/
def defaultSettings : Settings :=
  { warningsBeforeAction := some 2, dmOnAction := false
    ignoredChannels := none, ignoredRoles := none, trustedRoles := none }

/-- C2 witness: scenario 1 of the spec — warning count 0, resolved action
`timeout` with threshold 2 downgrades to warn and the ledger becomes 1. -/
theorem timeout_downgrade_below_threshold_witness :
    (takeAction spamVerdict [spamRule] defaultSettings "u1" [] true).warnBranch = true ∧
    getWarningCount (takeAction spamVerdict [spamRule] defaultSettings "u1" [] true).ledger "u1" = 1 := by
  have h := timeout_downgrade_below_threshold spamVerdict [spamRule] defaultSettings "u1" [] true
  have hres : (resolveAction spamVerdict [spamRule]).1 = JVal.jstr "timeout" := by
    simp [resolveAction, spamVerdict, spamRule]
  have hlt : getWarningCount ([] : SMap ℕ) "u1" < maxWarningsOf defaultSettings := by
    simp [getWarningCount, mapGet, maxWarningsOf, defaultSettings]
  have h1 := h.1 hres hlt
  refine ⟨h1.1, ?_⟩
  rw [h1.2.2]
  simp [getWarningCount, mapGet]

/-! ## Claim C6 -/

/-- A rule configured with `timeoutDuration = 0`. -/
def zeroDurationRule : Rule :=
  { id := "spam", action := "timeout", timeoutDuration := 0
    severity := "high", enabled := true }

/-- A flagged verdict suggesting a 600-second timeout for the same rule id. -/
def suggest600Verdict : Verdict :=
  { flagged := true, violations := ["spam"], confidence := 9 / 10
    reasoning := .jstr "spam wave", suggestedAction := .jstr "kick"
    suggestedDuration := .jnum 600, replyMessage := .jnull }

/-- C6 counterexample: with `zeroDurationRule` matched as primary violation,
the rule's action does override, but the configured `timeoutDuration = 0`
does **not** override the verdict's suggested duration — the `if
(rule.timeoutDuration)` guard at line 149 of `mod-bot.js` treats `0` as
falsy, so the resolved duration stays `600`, not the rule's `0`. -/
theorem zero_timeout_duration_not_overridden :
    zeroDurationRule.timeoutDuration = 0 ∧
    (resolveAction suggest600Verdict [zeroDurationRule]).1 = JVal.jstr "timeout" ∧
    (resolveAction suggest600Verdict [zeroDurationRule]).2 = JVal.jnum 600 ∧
    (resolveAction suggest600Verdict [zeroDurationRule]).2 ≠
      JVal.jnum zeroDurationRule.timeoutDuration := by
  refine ⟨rfl, ?_, ?_, ?_⟩ <;>
    simp [resolveAction, suggest600Verdict, zeroDurationRule]

/-- C6 amended: the rule found for the primary violation `violations[0]`
overrides the verdict's suggested action, and overrides the suggested
duration exactly when its `timeoutDuration` is nonzero (a `0` keeps the
verdict's suggestion); with no matching rule (or no violation id) the
verdict's own suggestion is resolved. The resolved pair is what
`_takeAction` carries into execution. -/
theorem rule_overrides_verdict_suggestion (v : Verdict) (rules : List Rule)
    (s : Settings) (authorId : String) (ledger : SMap ℕ) (deleteOk : Bool) :
    (∀ pv r, v.violations.head? = some pv → pv ≠ "" →
        rules.find? (fun q => q.id = pv) = some r →
        resolveAction v rules = (JVal.jstr r.action,
          if r.timeoutDuration ≠ 0 then JVal.jnum r.timeoutDuration
          else v.suggestedDuration)) ∧
    (∀ pv, v.violations.head? = some pv → pv ≠ "" →
        rules.find? (fun q => q.id = pv) = none →
        resolveAction v rules = (v.suggestedAction, v.suggestedDuration)) ∧
    (v.violations.head? = none →
        resolveAction v rules = (v.suggestedAction, v.suggestedDuration)) ∧
    (takeAction v rules s authorId ledger deleteOk).action = (resolveAction v rules).1 ∧
    (takeAction v rules s authorId ledger deleteOk).duration = (resolveAction v rules).2 := by
  refine ⟨?_, ?_, ?_, ?_, ?_⟩
  · intro pv r hpv hne hfind
    simp [resolveAction, hpv, hne, hfind]
  · intro pv hpv hne hfind
    simp [resolveAction, hpv, hne, hfind]
  · intro hpv
    simp [resolveAction, hpv]
  · by_cases hc : (resolveAction v rules).1 = JVal.jstr "warn" ∨
        ((resolveAction v rules).1 = JVal.jstr "timeout" ∧
          getWarningCount ledger authorId < maxWarningsOf s) <;>
      simp [takeAction, hc]
  · by_cases hc : (resolveAction v rules).1 = JVal.jstr "warn" ∨
        ((resolveAction v rules).1 = JVal.jstr "timeout" ∧
          getWarningCount ledger authorId < maxWarningsOf s) <;>
      simp [takeAction, hc]

/-- C6 amended witness: a nonzero configured duration (300) overrides the
verdict's suggested 60-second duration, and the rule's `timeout` replaces the
verdict's suggested action. -/
theorem rule_overrides_verdict_suggestion_witness :
    resolveAction spamVerdict [spamRule] = (JVal.jstr "timeout", JVal.jnum 300) := by
  have h := (rule_overrides_verdict_suggestion spamVerdict [spamRule]
    defaultSettings "u1" [] true).1 "spam" spamRule (by simp [spamVerdict])
    (by simp) (by simp [spamRule])
  rw [h]
  simp [spamRule, spamVerdict]

/-! ## Claim C8 -/

/-- C8: the warn branch (a resolved `warn`, or a `timeout` downgraded by the
warning threshold) never attempts to delete the triggering message; every
other resolved action attempts the delete first — it is the first observable
event — and a delete failure is logged while the type-specific action still
happens afterwards. -/
theorem warn_never_deletes (v : Verdict) (rules : List Rule) (s : Settings)
    (authorId : String) (ledger : SMap ℕ) (deleteOk : Bool) :
    ((takeAction v rules s authorId ledger deleteOk).warnBranch = true →
      ∀ b, Ev.deleteAttempt b ∉ (takeAction v rules s authorId ledger deleteOk).events) ∧
    ((takeAction v rules s authorId ledger deleteOk).warnBranch = false →
      (takeAction v rules s authorId ledger deleteOk).events.head? =
        some (Ev.deleteAttempt deleteOk) ∧
      (deleteOk = false →
        Ev.deleteErrorLogged ∈ (takeAction v rules s authorId ledger deleteOk).events) ∧
      ((resolveAction v rules).1 = JVal.jstr "timeout" →
        Ev.timeoutApplied (resolveAction v rules).2 ∈
          (takeAction v rules s authorId ledger deleteOk).events.drop 1) ∧
      ((resolveAction v rules).1 = JVal.jstr "kick" →
        Ev.kickApplied ∈ (takeAction v rules s authorId ledger deleteOk).events.drop 1) ∧
      ((resolveAction v rules).1 = JVal.jstr "request_ban" →
        Ev.banRequested ∈ (takeAction v rules s authorId ledger deleteOk).events.drop 1)) := by
  by_cases hc : (resolveAction v rules).1 = JVal.jstr "warn" ∨
      ((resolveAction v rules).1 = JVal.jstr "timeout" ∧
        getWarningCount ledger authorId < maxWarningsOf s)
  · constructor
    · intro _ b
      simp [takeAction, hc]
    · intro hw
      simp [takeAction, hc] at hw
  · constructor
    · intro hw
      simp [takeAction, hc] at hw
    · intro _
      refine ⟨by simp [takeAction, hc], ?_, ?_, ?_, ?_⟩
      · intro hdel
        simp [takeAction, hc, hdel]
      · intro h
        have hnlt : ¬getWarningCount ledger authorId < maxWarningsOf s :=
          fun hlt => hc (Or.inr ⟨h, hlt⟩)
        simp [takeAction, hc, h, hnlt]
      · intro h
        simp [takeAction, hc, h]
      · intro h
        simp [takeAction, hc, h]

/-- C8 witness: scenario 2 of the spec — warning count at the threshold, so
the timeout executes: the first event is the delete attempt and the timeout
follows it. -/
theorem warn_never_deletes_witness :
    (takeAction spamVerdict [spamRule] defaultSettings "u2" [("u2", 2)] true).warnBranch = false ∧
    (takeAction spamVerdict [spamRule] defaultSettings "u2" [("u2", 2)] true).events.head? =
      some (Ev.deleteAttempt true) ∧
    Ev.timeoutApplied (resolveAction spamVerdict [spamRule]).2 ∈
      (takeAction spamVerdict [spamRule] defaultSettings "u2" [("u2", 2)] true).events.drop 1 := by
  have hres : (resolveAction spamVerdict [spamRule]).1 = JVal.jstr "timeout" := by
    simp [resolveAction, spamVerdict, spamRule]
  have hwb : (takeAction spamVerdict [spamRule] defaultSettings "u2" [("u2", 2)] true).warnBranch = false := by
    have hc : ¬((resolveAction spamVerdict [spamRule]).1 = JVal.jstr "warn" ∨
        ((resolveAction spamVerdict [spamRule]).1 = JVal.jstr "timeout" ∧
          getWarningCount [("u2", 2)] "u2" < maxWarningsOf defaultSettings)) := by
      rintro (hw | ⟨_, hlt⟩)
      · rw [hres] at hw; simp at hw
      · simp [getWarningCount, mapGet, List.find?, maxWarningsOf, defaultSettings] at hlt
    simp [takeAction, hc]
  have h := (warn_never_deletes spamVerdict [spamRule] defaultSettings "u2" [("u2", 2)] true).2 hwb
  exact ⟨hwb, h.1, h.2.2.1 hres⟩

/-! ## Claim C5 -/

/-- C5: any failure of the classification call (timeout, malformed response,
non-JSON body — all surfacing as `CallOutcome.fail`) makes `analyzeMessage`
return the safe default verdict `flagged = false`, `confidence = 0` with a
reasoning string naming the failure, writing exactly one error audit entry.
`analyzeMessage` is a total function, which embeds "never raises past the
classifier boundary". Consequently `_handleMessage`'s enforcement gate never
fires for that message, whatever the message and settings. -/
theorem classifier_failure_safe_default (rules : List Rule) (e : String)
    (m : InMsg) (s : Settings)
    (h : (rules.filter (·.enabled)).isEmpty = false) :
    (analyzeMessage rules (.fail e)).verdict.flagged = false ∧
    (analyzeMessage rules (.fail e)).verdict.confidence = 0 ∧
    (analyzeMessage rules (.fail e)).verdict.reasoning =
      .jstr ("AI analysis failed: " ++ e) ∧
    (analyzeMessage rules (.fail e)).errorEntries = 1 ∧
    (handleMessage m s rules (.fail e)).actionTaken = false ∧
    ((handleMessage m s rules (.fail e)).classifierInvoked = true →
      (handleMessage m s rules (.fail e)).errorEntries = 1) := by
  refine ⟨?_, ?_, ?_, ?_, ?_, ?_⟩
  · simp [analyzeMessage, h, failVerdict]
  · simp [analyzeMessage, h, failVerdict]
  · simp [analyzeMessage, h, failVerdict]
  · simp [analyzeMessage, h]
  · unfold handleMessage
    split
    · rfl
    · split
      · rfl
      · split
        · rfl
        · split
          · rfl
          · split
            · rfl
            · simp [analyzeMessage, h, failVerdict]
  · unfold handleMessage
    split
    · intro hck; cases hck
    · split
      · intro hck; cases hck
      · split
        · intro hck; cases hck
        · split
          · intro hck; cases hck
          · split
            · intro hck; cases hck
            · intro _
              simp [analyzeMessage, h]

/-- An ordinary guild message from a human author. -/
def plainMsg : InMsg :=
  { authorBot := false, system := false, inGuild := true
    authorId := "u1", channelId := "c1", memberRoles := some [] }

/-- C5 witness: scenario 4 of the spec — the classifier call times out; the
verdict is the safe default, no action fires, one error entry is written. -/
theorem classifier_failure_safe_default_witness :
    (analyzeMessage [spamRule] (.fail "timeout of 30000ms exceeded")).verdict.flagged = false ∧
    (analyzeMessage [spamRule] (.fail "timeout of 30000ms exceeded")).verdict.confidence = 0 ∧
    (analyzeMessage [spamRule] (.fail "timeout of 30000ms exceeded")).errorEntries = 1 ∧
    (handleMessage plainMsg defaultSettings [spamRule]
      (.fail "timeout of 30000ms exceeded")).actionTaken = false := by
  have h := classifier_failure_safe_default [spamRule] "timeout of 30000ms exceeded"
    plainMsg defaultSettings (by simp [spamRule])
  exact ⟨h.1, h.2.1, h.2.2.2.1, h.2.2.2.2.1⟩

/-! ## Claim C10 -/

/-- C10: a message authored by a bot, marked as a system message, or arriving
outside a guild is dropped by the guards at lines 104–105 before any
counting, classification, or enforcement — whatever its content, settings,
rules, or what the classifier would have said. -/
theorem bot_system_nonguild_skipped (m : InMsg) (s : Settings)
    (rules : List Rule) (outcome : CallOutcome)
    (h : m.authorBot = true ∨ m.system = true ∨ m.inGuild = false) :
    handleMessage m s rules outcome =
      { messageCountDelta := 0, classifierInvoked := false
        actionTaken := false, errorEntries := 0 } := by
  rcases h with h | h | h
  · simp [handleMessage, h]
  · simp [handleMessage, h]
  · unfold handleMessage
    split
    · rfl
    · rw [if_pos]
      simp [h]

/-- C10 witness: a bot-authored message with content that a flagging verdict
would otherwise act on is skipped entirely. -/
theorem bot_system_nonguild_skipped_witness :
    handleMessage { plainMsg with authorBot := true } defaultSettings [spamRule]
        (.ok rawBoolConfidence) =
      { messageCountDelta := 0, classifierInvoked := false
        actionTaken := false, errorEntries := 0 } :=
  bot_system_nonguild_skipped _ _ _ _ (Or.inl rfl)

/-! ## Claim C4 -/

/-- Shape of one Phase 3 delivery pass, proved over all stage availabilities
and send outcomes: attempts follow the fixed stage order, every attempt
before the last fails, delivery means the last attempt succeeded and the
attempt count is one plus the number of failures, and an undelivered pass
means every attempt failed. -/
theorem deliverPhase_shape (admin modCh : Option Bool) (violOk : Bool)
    (anyCh : Option Bool) :
    ((deliverPhase admin modCh violOk anyCh).1.map Prod.fst).Sublist
      [Stage.dmStage, Stage.modChannelStage, Stage.violationChannelStage,
        Stage.anyChannelStage] ∧
    (∀ p ∈ (deliverPhase admin modCh violOk anyCh).1.dropLast, p.2 = false) ∧
    ((deliverPhase admin modCh violOk anyCh).2 = true →
      ((deliverPhase admin modCh violOk anyCh).1.getLast?.map Prod.snd = some true ∧
        (deliverPhase admin modCh violOk anyCh).1.length =
          (deliverPhase admin modCh violOk anyCh).1.countP (fun p => !p.2) + 1)) ∧
    ((deliverPhase admin modCh violOk anyCh).2 = false →
      ∀ p ∈ (deliverPhase admin modCh violOk anyCh).1, p.2 = false) := by
  revert admin modCh violOk anyCh
  decide

/-- C4: the delivery fallback chain of `_requestBan` is strictly ordered
DM → mod-channel → violation-channel → any-channel and stops at the first
successful send: every attempt but the last fails, and on success the number
of attempts equals one plus the number of (leading) failures. Whether or not
delivery succeeded, a `PendingBan` entry is stored under the offender's
composite key with the final `delivered` flag, and delivery exhaustion is
logged; nothing in `_requestBan` retries. -/
theorem ban_request_delivery_chain (v : Verdict) (userId guildId : String)
    (memberFound kickable kickOk : Bool) (admin modCh : Option Bool)
    (violOk : Bool) (anyCh : Option Bool) (pending : SMap PendingBan) :
    ((requestBan v userId guildId memberFound kickable kickOk admin modCh violOk
        anyCh pending).attempts.map Prod.fst).Sublist
      [Stage.dmStage, Stage.modChannelStage, Stage.violationChannelStage,
        Stage.anyChannelStage] ∧
    (∀ p ∈ (requestBan v userId guildId memberFound kickable kickOk admin modCh
        violOk anyCh pending).attempts.dropLast, p.2 = false) ∧
    ((requestBan v userId guildId memberFound kickable kickOk admin modCh violOk
        anyCh pending).delivered = true →
      ((requestBan v userId guildId memberFound kickable kickOk admin modCh
          violOk anyCh pending).attempts.getLast?.map Prod.snd = some true ∧
        (requestBan v userId guildId memberFound kickable kickOk admin modCh
          violOk anyCh pending).attempts.length =
          (requestBan v userId guildId memberFound kickable kickOk admin modCh
            violOk anyCh pending).attempts.countP (fun p => !p.2) + 1)) ∧
    ((requestBan v userId guildId memberFound kickable kickOk admin modCh violOk
        anyCh pending).delivered = false →
      ((∀ p ∈ (requestBan v userId guildId memberFound kickable kickOk admin
          modCh violOk anyCh pending).attempts, p.2 = false) ∧
        (requestBan v userId guildId memberFound kickable kickOk admin modCh
          violOk anyCh pending).deliveryFailureLogged = true)) ∧
    (∃ entry, mapGet (requestBan v userId guildId memberFound kickable kickOk
        admin modCh violOk anyCh pending).pendingBans (userId ++ "_" ++ guildId) =
        some entry ∧
      entry.delivered = (requestBan v userId guildId memberFound kickable kickOk
        admin modCh violOk anyCh pending).delivered) := by
  have hd := deliverPhase_shape admin modCh violOk anyCh
  refine ⟨?_, ?_, ?_, ?_, ?_⟩
  · simpa [requestBan] using hd.1
  · simpa [requestBan] using hd.2.1
  · intro h
    simp only [requestBan] at h ⊢
    exact hd.2.2.1 h
  · intro h
    simp only [requestBan] at h ⊢
    exact ⟨hd.2.2.2 h, by simp [h]⟩
  · refine ⟨{ userId, guildId, reason := v.reasoning, violations := v.violations
              confidence := v.confidence
              kicked := (restrainPhase memberFound kickable kickOk).1
              delivered := (deliverPhase admin modCh violOk anyCh).2 }, ?_, ?_⟩
    · simp [requestBan, mapGet_mapSet_self]
    · simp [requestBan]

/-- C4 witness: reviewer located but DM send rejected, no mod channel, send
in the violation channel succeeds — two attempts, one leading failure, entry
recorded as delivered. -/
theorem ban_request_delivery_chain_witness :
    (requestBan spamVerdict "u3" "g1" true true true (some false) none true none
      []).attempts = [(Stage.dmStage, false), (Stage.violationChannelStage, true)] ∧
    (requestBan spamVerdict "u3" "g1" true true true (some false) none true none
      []).attempts.length =
      (requestBan spamVerdict "u3" "g1" true true true (some false) none true none
        []).attempts.countP (fun p => !p.2) + 1 := by
  have h := (ban_request_delivery_chain spamVerdict "u3" "g1" true true true
    (some false) none true none []).2.2.1 (by simp [requestBan, deliverPhase])
  exact ⟨by simp [requestBan, deliverPhase], h.2⟩

/-! ## Claim C7 -/

/-- C7: Phase 1 of `_requestBan` tries the kick first; a kickable offender
(whose kick call resolves) yields `kicked = true`, while insufficient kick
privilege falls back to the 7-day mute (`7*24*60*60*1000` ms) with
`kicked = false`; in every case the restraint outcome `kicked` is stored in
the created `PendingBan` entry. -/
theorem ban_request_restraint (v : Verdict) (userId guildId : String)
    (memberFound kickable kickOk : Bool) (admin modCh : Option Bool)
    (violOk : Bool) (anyCh : Option Bool) (pending : SMap PendingBan) :
    (memberFound = true → kickable = true → kickOk = true →
      (requestBan v userId guildId memberFound kickable kickOk admin modCh violOk
        anyCh pending).kicked = true ∧
      (requestBan v userId guildId memberFound kickable kickOk admin modCh violOk
        anyCh pending).restraint = Restraint.kickRestraint) ∧
    (memberFound = true → kickable = false →
      (requestBan v userId guildId memberFound kickable kickOk admin modCh violOk
        anyCh pending).kicked = false ∧
      (requestBan v userId guildId memberFound kickable kickOk admin modCh violOk
        anyCh pending).restraint = Restraint.muteMs (7 * 24 * 60 * 60 * 1000)) ∧
    (∃ entry, mapGet (requestBan v userId guildId memberFound kickable kickOk
        admin modCh violOk anyCh pending).pendingBans (userId ++ "_" ++ guildId) =
        some entry ∧
      entry.kicked = (requestBan v userId guildId memberFound kickable kickOk
        admin modCh violOk anyCh pending).kicked) := by
  refine ⟨?_, ?_, ?_⟩
  · intro h1 h2 h3
    simp [requestBan, restrainPhase, h1, h2, h3]
  · intro h1 h2
    simp [requestBan, restrainPhase, h1, h2]
  · refine ⟨{ userId, guildId, reason := v.reasoning, violations := v.violations
              confidence := v.confidence
              kicked := (restrainPhase memberFound kickable kickOk).1
              delivered := (deliverPhase admin modCh violOk anyCh).2 }, ?_, ?_⟩
    · simp [requestBan, mapGet_mapSet_self]
    · simp [requestBan]

/-- C7 witness: scenario 3 of the spec — a kickable offender is kicked and
the pending entry carries `kicked = true`. -/
theorem ban_request_restraint_witness :
    (requestBan spamVerdict "u3" "g1" true true true (some true) none true none
      []).kicked = true ∧
    mapGet (requestBan spamVerdict "u3" "g1" true true true (some true) none true
      none []).pendingBans "u3_g1" =
      some { userId := "u3", guildId := "g1", reason := spamVerdict.reasoning
             violations := spamVerdict.violations
             confidence := spamVerdict.confidence, kicked := true
             delivered := true } := by
  have h := (ban_request_restraint spamVerdict "u3" "g1" true true true
    (some true) none true none []).1 rfl rfl rfl
  refine ⟨h.1, ?_⟩
  simp [requestBan, restrainPhase, deliverPhase, mapGet_mapSet_self]

/-! ## Claim C3 -/

/-- A pending-ban map holding the entry under review. -/
def pendingOne : SMap PendingBan :=
  [("u9_g1", { userId := "u9", guildId := "g1", reason := .jstr "raid organizing"
               violations := ["raid"], confidence := 95 / 100
               kicked := true, delivered := true })]

/-- C3 counterexample: the offender has left (member fetch yields null) and
the ban by raw id fails — the failure is reported to the reviewer
(`banByIdFailed`), but the pending entry is **removed anyway**:
`this.pendingBans.delete(...)` at line 586 of `mod-bot.js` sits after the
`if`/`else`, outside the inner `catch`, so it runs on this failure path too.
The claim's "the pending entry is left in the map for retry" is false here. -/
theorem failed_id_ban_still_removes_pending :
    (handleApprove "u9" "g1" true false false false false pendingOne).1 =
      ApproveOutcome.banByIdFailed ∧
    mapGet (handleApprove "u9" "g1" true false false false false pendingOne).2
      "u9_g1" = none := by
  constructor
  · simp [handleApprove]
  · simp [handleApprove]
    exact mapGet_mapDelete pendingOne "u9_g1"

/-- C3 amended: approving a pending ban bans through the membership record
when the member is found and bannable, and by raw user id when the member is
absent (or not bannable). On success by either path the pending entry is
removed. When the raw-id ban fails, the failure is reported back to the
reviewer inline but the pending entry is removed as well; the entry survives
only when the membership-path ban call itself rejects (reported as a generic
ban failure through the outer catch). -/
theorem approve_resolution (userId guildId : String)
    (guildOk memberFound bannable memberBanOk banByIdOk : Bool)
    (pending : SMap PendingBan) :
    (guildOk = true → memberFound = true → bannable = true → memberBanOk = true →
      (handleApprove userId guildId guildOk memberFound bannable memberBanOk
        banByIdOk pending).1 = ApproveOutcome.bannedViaMember ∧
      mapGet (handleApprove userId guildId guildOk memberFound bannable
        memberBanOk banByIdOk pending).2 (userId ++ "_" ++ guildId) = none) ∧
    (guildOk = true → ¬(memberFound = true ∧ bannable = true) → banByIdOk = true →
      (handleApprove userId guildId guildOk memberFound bannable memberBanOk
        banByIdOk pending).1 = ApproveOutcome.bannedById ∧
      mapGet (handleApprove userId guildId guildOk memberFound bannable
        memberBanOk banByIdOk pending).2 (userId ++ "_" ++ guildId) = none) ∧
    (guildOk = true → ¬(memberFound = true ∧ bannable = true) → banByIdOk = false →
      (handleApprove userId guildId guildOk memberFound bannable memberBanOk
        banByIdOk pending).1 = ApproveOutcome.banByIdFailed ∧
      mapGet (handleApprove userId guildId guildOk memberFound bannable
        memberBanOk banByIdOk pending).2 (userId ++ "_" ++ guildId) = none) ∧
    (guildOk = true → memberFound = true → bannable = true → memberBanOk = false →
      (handleApprove userId guildId guildOk memberFound bannable memberBanOk
        banByIdOk pending).1 = ApproveOutcome.outerBanError ∧
      (handleApprove userId guildId guildOk memberFound bannable memberBanOk
        banByIdOk pending).2 = pending) := by
  refine ⟨?_, ?_, ?_, ?_⟩
  · intro h1 h2 h3 h4
    simp [handleApprove, h1, h2, h3, h4, mapGet_mapDelete]
  · intro h1 h2 h3
    simp [handleApprove, h1, h2, h3, mapGet_mapDelete]
  · intro h1 h2 h3
    simp [handleApprove, h1, h2, h3, mapGet_mapDelete]
  · intro h1 h2 h3 h4
    simp [handleApprove, h1, h2, h3, h4]

/-- C3 amended witness: the offender already left and the raw-id ban
succeeds — the ban goes through by id and the pending entry is removed. -/
theorem approve_resolution_witness :
    (handleApprove "u9" "g1" true false false false true pendingOne).1 =
      ApproveOutcome.bannedById ∧
    mapGet (handleApprove "u9" "g1" true false false false true pendingOne).2
      "u9_g1" = none := by
  exact (approve_resolution "u9" "g1" true false false false true pendingOne).2.1
    rfl (by simp) rfl

/-! ## Claim C9 -/

/-- C9: a deny interaction whose composite key has no pending entry (for
example, a second deny after the first already resolved the request) leaves
the pending-ban map exactly as it was — `Map.delete` of an absent key is a
no-op — and `handleDeny` is a total function, so nothing is raised. -/
theorem deny_absent_key_noop (userId guildId : String)
    (guildOk memberFound clearOk : Bool) (pending : SMap PendingBan)
    (h : ∀ p ∈ pending, p.1 ≠ userId ++ "_" ++ guildId) :
    (handleDeny userId guildId guildOk memberFound clearOk pending).2 = pending := by
  unfold handleDeny
  split
  · rfl
  · split
    · rfl
    · simpa using mapDelete_of_absent pending (userId ++ "_" ++ guildId) h

/-- C9 witness: denying a request whose entry was already removed (map holds
only an unrelated key) leaves the map unchanged. -/
theorem deny_absent_key_noop_witness :
    (handleDeny "u7" "g1" true false true pendingOne).2 = pendingOne := by
  apply deny_absent_key_noop
  intro p hp
  simp [pendingOne] at hp
  simp [hp]

end ColorGG
